import Mathlib

/-!
# `sys_wrappers.c`: the `serial_*` forwarding layer

The source file defines ten C functions, each of which has the body
`return f(args);` for one primitive `f` of the host C library
(`open`, `close`, `read`, `write`, `ioctl`, `tcgetattr`, `tcsetattr`,
`tcflush`, `cfsetispeed`, `cfsetospeed`).

Embedding.  The primitives are not defined by the repository, so the host is a
parameter: a `Host σ` gives, for every primitive call and every host state
`σ` (kernel, devices, the caller's memory, `errno`), the returned value and the
next state.  A C call of a primitive is `callPrim`: it runs the call on the
host and appends the call, with its arguments, to the trace of the machine.
The ten wrappers are translated line by line on top of `callPrim`.

Pointers (`const char *`, `void *`, `struct termios *`) are addresses; the
wrappers forward them without dereferencing.  `int`, `ssize_t`, `size_t`,
`unsigned long` and `speed_t` values are forwarded between identical C types,
so no conversion happens and they are modelled by `Int` / `Nat`.
-/

namespace SysWrappers

/-! ## Data model -/

/-- Modelled from the spec: `struct termios` is declared by `<termios.h>`, which
is not under src/.  The spec describes it as a fixed-layout record of line
discipline, baud rate, control flags and special characters; the fields are the
POSIX ones plus the two speed fields. -/
structure Termios where
  c_iflag : Nat
  c_oflag : Nat
  c_cflag : Nat
  c_lflag : Nat
  c_line : Nat
  c_cc : List Nat
  c_ispeed : Nat
  c_ospeed : Nat
deriving DecidableEq, Repr

/-- One call of a host primitive, with its C arguments in order.  `open` is
variadic in C (`int open(const char *, int, ...)`): the third argument, the
file-creation mode, is present or absent at each call site, hence `Option`. -/
inductive Call where
  | sys_open (path : Nat) (flags : Int) (mode : Option Nat)
  | sys_close (fd : Int)
  | sys_read (fd : Int) (buf : Nat) (count : Nat)
  | sys_write (fd : Int) (buf : Nat) (count : Nat)
  | sys_ioctl (fd : Int) (request : Nat) (arg : Nat)
  | sys_tcgetattr (fd : Int) (termios_p : Nat)
  | sys_tcsetattr (fd : Int) (optional_actions : Int) (termios_p : Nat)
  | sys_tcflush (fd : Int) (queue_selector : Int)
  | sys_cfsetispeed (termios_p : Nat) (speed : Nat)
  | sys_cfsetospeed (termios_p : Nat) (speed : Nat)
deriving DecidableEq, Repr

/-- The descriptor a primitive call is issued against, if it takes one. -/
def Call.fd? : Call → Option Int
  | .sys_open _ _ _ => none
  | .sys_close fd => some fd
  | .sys_read fd _ _ => some fd
  | .sys_write fd _ _ => some fd
  | .sys_ioctl fd _ _ => some fd
  | .sys_tcgetattr fd _ => some fd
  | .sys_tcsetattr fd _ _ => some fd
  | .sys_tcflush fd _ => some fd
  | .sys_cfsetispeed _ _ => none
  | .sys_cfsetospeed _ _ => none

/-- The host environment the wrappers run on.  `exec c s` is what the primitive
call `c` returns from host state `s`, and the state it leaves.  The three
observations read the last-error variable, a byte of the caller's memory and an
attribute structure held in the caller's memory. -/
structure Host (σ : Type) where
  exec : Call → σ → Int × σ
  errno : σ → Int
  mem : σ → Nat → Nat
  termiosAt : σ → Nat → Termios

/-- A running process: the host state and the primitive calls issued so far.
The trace is an observation only: it is appended to by `callPrim` and read by
no wrapper.  The layer has no variables of its own, so there is nothing else. -/
structure Machine (σ : Type) where
  os : σ
  trace : List Call

/-- A C call `f(args)` of a host primitive: run it on the host, record it. -/
def callPrim {σ : Type} (h : Host σ) (c : Call) (m : Machine σ) : Int × Machine σ :=
  ((h.exec c m.os).1, { os := (h.exec c m.os).2, trace := m.trace ++ [c] })

/-! ## The ten wrappers (`src/sys_wrappers.c`) -/

/-- Source: `int serial_open(const char *path, int flags) { return open(path, flags); }` -/
def serial_open {σ : Type} (h : Host σ) (path : Nat) (flags : Int) :
    Machine σ → Int × Machine σ :=
  callPrim h (Call.sys_open path flags none)

/-- Source: `int serial_close(int fd) { return close(fd); }` -/
def serial_close {σ : Type} (h : Host σ) (fd : Int) : Machine σ → Int × Machine σ :=
  callPrim h (Call.sys_close fd)

/-- Source: `ssize_t serial_read(int fd, void *buf, size_t count) { return read(fd, buf, count); }` -/
def serial_read {σ : Type} (h : Host σ) (fd : Int) (buf : Nat) (count : Nat) :
    Machine σ → Int × Machine σ :=
  callPrim h (Call.sys_read fd buf count)

/-- Source: `ssize_t serial_write(int fd, const void *buf, size_t count) { return write(fd, buf, count); }` -/
def serial_write {σ : Type} (h : Host σ) (fd : Int) (buf : Nat) (count : Nat) :
    Machine σ → Int × Machine σ :=
  callPrim h (Call.sys_write fd buf count)

/-- Source: `int serial_ioctl(int fd, unsigned long request, void *arg) { return ioctl(fd, request, arg); }` -/
def serial_ioctl {σ : Type} (h : Host σ) (fd : Int) (request : Nat) (arg : Nat) :
    Machine σ → Int × Machine σ :=
  callPrim h (Call.sys_ioctl fd request arg)

/-- Source: `int serial_tcgetattr(int fd, struct termios *termios_p) { return tcgetattr(fd, termios_p); }` -/
def serial_tcgetattr {σ : Type} (h : Host σ) (fd : Int) (termios_p : Nat) :
    Machine σ → Int × Machine σ :=
  callPrim h (Call.sys_tcgetattr fd termios_p)

/-- Source: `int serial_tcsetattr(int fd, int optional_actions, const struct termios *termios_p)
{ return tcsetattr(fd, optional_actions, termios_p); }` -/
def serial_tcsetattr {σ : Type} (h : Host σ) (fd : Int) (optional_actions : Int)
    (termios_p : Nat) : Machine σ → Int × Machine σ :=
  callPrim h (Call.sys_tcsetattr fd optional_actions termios_p)

/-- Source: `int serial_tcflush(int fd, int queue_selector) { return tcflush(fd, queue_selector); }` -/
def serial_tcflush {σ : Type} (h : Host σ) (fd : Int) (queue_selector : Int) :
    Machine σ → Int × Machine σ :=
  callPrim h (Call.sys_tcflush fd queue_selector)

/-- Source: `int serial_cfsetispeed(struct termios *termios_p, speed_t speed)
{ return cfsetispeed(termios_p, speed); }` -/
def serial_cfsetispeed {σ : Type} (h : Host σ) (termios_p : Nat) (speed : Nat) :
    Machine σ → Int × Machine σ :=
  callPrim h (Call.sys_cfsetispeed termios_p speed)

/-- Source: `int serial_cfsetospeed(struct termios *termios_p, speed_t speed)
{ return cfsetospeed(termios_p, speed); }` -/
def serial_cfsetospeed {σ : Type} (h : Host σ) (termios_p : Nat) (speed : Nat) :
    Machine σ → Int × Machine σ :=
  callPrim h (Call.sys_cfsetospeed termios_p speed)

/-! ## Wrapper invocations and client sequences -/

/-- An invocation of one of the ten wrappers, with the wrapper's own parameters
(so `w_open` has two: the wrapper's signature has no mode parameter). -/
inductive WCall where
  | w_open (path : Nat) (flags : Int)
  | w_close (fd : Int)
  | w_read (fd : Int) (buf : Nat) (count : Nat)
  | w_write (fd : Int) (buf : Nat) (count : Nat)
  | w_ioctl (fd : Int) (request : Nat) (arg : Nat)
  | w_tcgetattr (fd : Int) (termios_p : Nat)
  | w_tcsetattr (fd : Int) (optional_actions : Int) (termios_p : Nat)
  | w_tcflush (fd : Int) (queue_selector : Int)
  | w_cfsetispeed (termios_p : Nat) (speed : Nat)
  | w_cfsetospeed (termios_p : Nat) (speed : Nat)
deriving DecidableEq, Repr

/-- Running a wrapper invocation: dispatch to the wrapper's translated body. -/
def WCall.run {σ : Type} (h : Host σ) : WCall → Machine σ → Int × Machine σ
  | .w_open path flags => serial_open h path flags
  | .w_close fd => serial_close h fd
  | .w_read fd buf count => serial_read h fd buf count
  | .w_write fd buf count => serial_write h fd buf count
  | .w_ioctl fd request arg => serial_ioctl h fd request arg
  | .w_tcgetattr fd termios_p => serial_tcgetattr h fd termios_p
  | .w_tcsetattr fd optional_actions termios_p => serial_tcsetattr h fd optional_actions termios_p
  | .w_tcflush fd queue_selector => serial_tcflush h fd queue_selector
  | .w_cfsetispeed termios_p speed => serial_cfsetispeed h termios_p speed
  | .w_cfsetospeed termios_p speed => serial_cfsetospeed h termios_p speed

/-- Specification side (the spec's "serial_X replaced by X with the same
arguments"): the direct primitive call that corresponds to a wrapper
invocation.  Written from the spec's words and compared with `WCall.run`. -/
def WCall.direct : WCall → Call
  | .w_open path flags => Call.sys_open path flags none
  | .w_close fd => Call.sys_close fd
  | .w_read fd buf count => Call.sys_read fd buf count
  | .w_write fd buf count => Call.sys_write fd buf count
  | .w_ioctl fd request arg => Call.sys_ioctl fd request arg
  | .w_tcgetattr fd termios_p => Call.sys_tcgetattr fd termios_p
  | .w_tcsetattr fd optional_actions termios_p => Call.sys_tcsetattr fd optional_actions termios_p
  | .w_tcflush fd queue_selector => Call.sys_tcflush fd queue_selector
  | .w_cfsetispeed termios_p speed => Call.sys_cfsetispeed termios_p speed
  | .w_cfsetospeed termios_p speed => Call.sys_cfsetospeed termios_p speed

/-- A client that calls wrappers one after the other: the results, in order, and
the machine at the end. -/
def runWrappers {σ : Type} (h : Host σ) : List WCall → Machine σ → List Int × Machine σ
  | [], m => ([], m)
  | w :: ws, m =>
    ((w.run h m).1 :: (runWrappers h ws (w.run h m).2).1, (runWrappers h ws (w.run h m).2).2)

/-- Specification side: a client that calls the primitives directly, with no
layer in between: the results, in order, and the host state at the end. -/
def runDirect {σ : Type} (h : Host σ) : List Call → σ → List Int × σ
  | [], s => ([], s)
  | c :: cs, s =>
    ((h.exec c s).1 :: (runDirect h cs (h.exec c s).2).1, (runDirect h cs (h.exec c s).2).2)

/-! ## A reference host

The pass-through theorems hold for every host.  Statements about what a call
returns (a descriptor is invalid after `close`, settings read back are the
settings written) are statements about the primitives; they are settled on this
reference host, a small POSIX-style kernel with a descriptor table, the null
device and one terminal line. -/

/-- Device nodes of the reference host: `/dev/null` and `/dev/ttyS0`. -/
inductive Node where
  | null
  | tty
deriving DecidableEq, Repr

/-- An open-file entry: the node and the flags it was opened with. -/
structure OpenFile where
  node : Node
  flags : Int
deriving DecidableEq, Repr

/-- State of the reference host.  `fds` is the descriptor table (slot `i` is
descriptor `i`; its length is the limit on open descriptors); `line` holds the
terminal's current settings; `input` is received and unread, `outq` written and
not yet transmitted (at most `cap` bytes), `sent` transmitted; `bytes` and
`attrs` are the caller's memory (bytes and attribute structures by address). -/
structure World where
  errno : Int
  fds : List (Option OpenFile)
  line : Termios
  input : List Nat
  outq : List Nat
  cap : Nat
  sent : List Nat
  bytes : List (Nat × Nat)
  attrs : List (Nat × Termios)
deriving DecidableEq, Repr

def ENOENT : Int := 2
def EINTR : Int := 4
def EBADF : Int := 9
def EAGAIN : Int := 11
def EINVAL : Int := 22
def EMFILE : Int := 24
def ENOTTY : Int := 25
def EROFS : Int := 30

def O_RDONLY : Int := 0
def O_WRONLY : Int := 1
def O_RDWR : Int := 2
def O_CREAT : Int := 64
def O_NONBLOCK : Int := 2048

def TCSANOW : Int := 0
def TCSADRAIN : Int := 1
def TCSAFLUSH : Int := 2
def TCIFLUSH : Int := 0
def TCOFLUSH : Int := 1
def TCIOFLUSH : Int := 2
def FIONREAD : Nat := 21531

/-- The all-zero attribute structure. -/
def Termios.zero : Termios :=
  { c_iflag := 0, c_oflag := 0, c_cflag := 0, c_lflag := 0, c_line := 0, c_cc := [],
    c_ispeed := 0, c_ospeed := 0 }

/-- Byte of caller memory at an address (unmapped addresses read as 0). -/
def World.byteAt (w : World) (a : Nat) : Nat :=
  (w.bytes.lookup a).getD 0

/-- Attribute structure of caller memory at an address. -/
def World.attrAt (w : World) (a : Nat) : Termios :=
  (w.attrs.lookup a).getD Termios.zero

/-- Store bytes at consecutive addresses. -/
def storeBytes : List (Nat × Nat) → Nat → List Nat → List (Nat × Nat)
  | mem, _, [] => mem
  | mem, a, b :: bs => storeBytes ((a, b) :: mem) (a + 1) bs

/-- Load `n` bytes from consecutive addresses. -/
def World.loadBytes (w : World) (a : Nat) : Nat → List Nat
  | 0 => []
  | n + 1 => w.byteAt a :: w.loadBytes (a + 1) n

/-- The NUL-terminated string at an address (at most `fuel` bytes are read). -/
def World.cstr (w : World) (a : Nat) : Nat → List Nat
  | 0 => []
  | fuel + 1 => if w.byteAt a = 0 then [] else w.byteAt a :: w.cstr (a + 1) fuel

/-- Bytes of the string `/dev/null`. -/
def devNull : List Nat := [47, 100, 101, 118, 47, 110, 117, 108, 108]

/-- Bytes of the string `/dev/ttyS0`. -/
def devTty : List Nat := [47, 100, 101, 118, 47, 116, 116, 121, 83, 48]

/-- A failing primitive: returns the sentinel `-1` and sets `errno`. -/
def World.fail (w : World) (e : Int) : Int × World :=
  (-1, { w with errno := e })

/-- The open file behind a descriptor, if any. -/
def World.file (w : World) (fd : Int) : Option OpenFile :=
  if fd < 0 then none else (w.fds[fd.toNat]?).join

/-- Index of the lowest unused slot of a descriptor table. -/
def firstFree : List (Option OpenFile) → Option Nat
  | [] => none
  | none :: _ => some 0
  | some _ :: rest => (firstFree rest).map (· + 1)

/-- Whether a descriptor was opened non-blocking. -/
def OpenFile.nonblock (f : OpenFile) : Bool :=
  (f.flags / O_NONBLOCK) % 2 = 1

/-- Error of an operation that would have to wait. -/
def OpenFile.wouldWait (f : OpenFile) : Int :=
  if f.nonblock then EAGAIN else EINTR

/-- Reference host `open`: the access mode must be valid and the path must name a
device node (nothing can be created: the file system is read-only); the lowest
unused descriptor is returned, `EMFILE` when the table is full.  The mode is
not used, since no file is ever created. -/
def World.sys_open (w : World) (path : Nat) (flags : Int) (_mode : Option Nat) : Int × World :=
  if flags % 4 = 3 then w.fail EINVAL else
  let name := w.cstr path 4096
  let node : Option Node :=
    if name = devNull then some Node.null else if name = devTty then some Node.tty else none
  match node with
  | none => if (flags / O_CREAT) % 2 = 1 then w.fail EROFS else w.fail ENOENT
  | some n =>
    match firstFree w.fds with
    | none => w.fail EMFILE
    | some i => ((i : Int), { w with fds := w.fds.set i (some { node := n, flags := flags }) })

/-- Reference host `close`: releases an open descriptor, `EBADF` otherwise. -/
def World.sys_close (w : World) (fd : Int) : Int × World :=
  match w.file fd with
  | none => w.fail EBADF
  | some _ => (0, { w with fds := w.fds.set fd.toNat none })

/-- Reference host `read`: end-of-file on `/dev/null`; on the terminal, up to
`count` of the received bytes are stored at `buf`, and with nothing received the
call fails (`EAGAIN` when non-blocking, else interrupted, `EINTR`). -/
def World.sys_read (w : World) (fd : Int) (buf : Nat) (count : Nat) : Int × World :=
  match w.file fd with
  | none => w.fail EBADF
  | some f =>
    if f.flags % 4 = O_WRONLY then w.fail EBADF else
    match f.node with
    | Node.null => (0, w)
    | Node.tty =>
      if count = 0 then (0, w) else
      if w.input = [] then w.fail f.wouldWait else
      (((w.input.take count).length : Int),
        { w with input := w.input.drop count,
                 bytes := storeBytes w.bytes buf (w.input.take count) })

/-- Reference host `write`: `/dev/null` accepts everything; the terminal accepts
what fits in its output queue (a short count), and fails when the queue is full
(`EAGAIN` when non-blocking, else interrupted, `EINTR`). -/
def World.sys_write (w : World) (fd : Int) (buf : Nat) (count : Nat) : Int × World :=
  match w.file fd with
  | none => w.fail EBADF
  | some f =>
    if f.flags % 4 = O_RDONLY then w.fail EBADF else
    match f.node with
    | Node.null => ((count : Int), w)
    | Node.tty =>
      if count = 0 then (0, w) else
      if w.cap ≤ w.outq.length then w.fail f.wouldWait else
      (((min count (w.cap - w.outq.length) : Nat) : Int),
        { w with outq := w.outq ++ w.loadBytes buf (min count (w.cap - w.outq.length)) })

/-- The four bytes of a 32-bit value, least significant first. -/
def le32 (n : Nat) : List Nat :=
  [n % 256, n / 256 % 256, n / 65536 % 256, n / 16777216 % 256]

/-- Reference host `ioctl`: `FIONREAD` on the terminal stores the number of
received bytes at `arg`; `ENOTTY` on `/dev/null`, `EINVAL` for other requests. -/
def World.sys_ioctl (w : World) (fd : Int) (request : Nat) (arg : Nat) : Int × World :=
  match w.file fd with
  | none => w.fail EBADF
  | some f =>
    match f.node with
    | Node.null => w.fail ENOTTY
    | Node.tty =>
      if request = FIONREAD then
        (0, { w with bytes := storeBytes w.bytes arg (le32 w.input.length) })
      else w.fail EINVAL

/-- Reference host `tcgetattr`: stores the terminal's settings at `termios_p`. -/
def World.sys_tcgetattr (w : World) (fd : Int) (termios_p : Nat) : Int × World :=
  match w.file fd with
  | none => w.fail EBADF
  | some f =>
    match f.node with
    | Node.null => w.fail ENOTTY
    | Node.tty => (0, { w with attrs := (termios_p, w.line) :: w.attrs })

/-- Reference host `tcsetattr`: makes the structure at `termios_p` the terminal's
settings, now, after draining the output, or after draining and discarding the
input; `EINVAL` for any other selector. -/
def World.sys_tcsetattr (w : World) (fd : Int) (optional_actions : Int) (termios_p : Nat) :
    Int × World :=
  match w.file fd with
  | none => w.fail EBADF
  | some f =>
    match f.node with
    | Node.null => w.fail ENOTTY
    | Node.tty =>
      if optional_actions = TCSANOW then
        (0, { w with line := w.attrAt termios_p })
      else if optional_actions = TCSADRAIN then
        (0, { w with line := w.attrAt termios_p, sent := w.sent ++ w.outq, outq := [] })
      else if optional_actions = TCSAFLUSH then
        (0, { w with line := w.attrAt termios_p, sent := w.sent ++ w.outq, outq := [],
                     input := [] })
      else w.fail EINVAL

/-- Reference host `tcflush`: discards the input queue, the output queue or both. -/
def World.sys_tcflush (w : World) (fd : Int) (queue_selector : Int) : Int × World :=
  match w.file fd with
  | none => w.fail EBADF
  | some f =>
    match f.node with
    | Node.null => w.fail ENOTTY
    | Node.tty =>
      if queue_selector = TCIFLUSH then (0, { w with input := [] })
      else if queue_selector = TCOFLUSH then (0, { w with outq := [] })
      else if queue_selector = TCIOFLUSH then (0, { w with input := [], outq := [] })
      else w.fail EINVAL

/-- Whether a `speed_t` value is one of the `B...` encodings (`B0` .. `B38400`
are 0 .. 15, `B57600` .. `B4000000` are 4097 .. 4111). -/
def speedOk (speed : Nat) : Bool :=
  speed ≤ 15 || (4097 ≤ speed && speed ≤ 4111)

/-- Reference host `cfsetispeed`: stores a recognized speed in the structure at
`termios_p`; `EINVAL` otherwise.  No descriptor and no device is involved. -/
def World.sys_cfsetispeed (w : World) (termios_p : Nat) (speed : Nat) : Int × World :=
  if speedOk speed then
    (0, { w with attrs := (termios_p, { w.attrAt termios_p with c_ispeed := speed }) :: w.attrs })
  else w.fail EINVAL

/-- Reference host `cfsetospeed`: as `cfsetispeed`, for the output speed. -/
def World.sys_cfsetospeed (w : World) (termios_p : Nat) (speed : Nat) : Int × World :=
  if speedOk speed then
    (0, { w with attrs := (termios_p, { w.attrAt termios_p with c_ospeed := speed }) :: w.attrs })
  else w.fail EINVAL

/-- Dispatch of a primitive call on the reference host. -/
def World.exec : Call → World → Int × World
  | .sys_open path flags mode, w => w.sys_open path flags mode
  | .sys_close fd, w => w.sys_close fd
  | .sys_read fd buf count, w => w.sys_read fd buf count
  | .sys_write fd buf count, w => w.sys_write fd buf count
  | .sys_ioctl fd request arg, w => w.sys_ioctl fd request arg
  | .sys_tcgetattr fd termios_p, w => w.sys_tcgetattr fd termios_p
  | .sys_tcsetattr fd optional_actions termios_p, w => w.sys_tcsetattr fd optional_actions termios_p
  | .sys_tcflush fd queue_selector, w => w.sys_tcflush fd queue_selector
  | .sys_cfsetispeed termios_p speed, w => w.sys_cfsetispeed termios_p speed
  | .sys_cfsetospeed termios_p speed, w => w.sys_cfsetospeed termios_p speed

/-- Modelled from the spec: the ten primitives belong to the host C library and
kernel and are not under src/.  Each follows the description of the operation
in the spec (section 4.1) and POSIX: `-1` and an error code on failure, the
lowest unused descriptor on `open`, short counts on `read` / `write`, terminal
calls refused on a descriptor that is not a terminal. -/
def refHost : Host World where
  exec := World.exec
  errno := fun w => w.errno
  mem := fun w a => w.byteAt a
  termiosAt := fun w a => w.attrAt a

/-- The attribute structure the test inputs set: 9600 baud (`B9600` is 13),
`CS8 | CREAD | CLOCAL` (2224). -/
def raw9600 : Termios :=
  { c_iflag := 0, c_oflag := 0, c_cflag := 2224, c_lflag := 0, c_line := 0, c_cc := [],
    c_ispeed := 13, c_ospeed := 13 }

/-- A freshly started process on the reference host: descriptors 0, 1, 2 are
the terminal, five more slots are free; memory holds `/dev/null` at address
100, `/dev/ttyS0` at 120, `abc` at 200, and `raw9600` at 300. -/
def boot : World :=
  { errno := 0
    fds := [some { node := Node.tty, flags := O_RDWR }, some { node := Node.tty, flags := O_RDWR },
            some { node := Node.tty, flags := O_RDWR }, none, none, none, none, none]
    line := Termios.zero
    input := []
    outq := []
    cap := 4
    sent := []
    bytes := storeBytes (storeBytes (storeBytes [] 100 devNull) 120 devTty) 200 [97, 98, 99]
    attrs := [(300, raw9600)] }

/-- A machine started in a given host state with an empty trace. -/
def Machine.start {σ : Type} (s : σ) : Machine σ :=
  { os := s, trace := [] }

/-- The scenario of the spec as a client of the layer: open a path, write
`count` bytes from `buf` to the descriptor returned, close that descriptor.
The three results, in order, and the machine at the end. -/
def scenario {σ : Type} (h : Host σ) (path : Nat) (flags : Int) (buf count : Nat)
    (m : Machine σ) : (Int × Int × Int) × Machine σ :=
  (((serial_open h path flags m).1,
    (serial_write h (serial_open h path flags m).1 buf count (serial_open h path flags m).2).1,
    (serial_close h (serial_open h path flags m).1
      (serial_write h (serial_open h path flags m).1 buf count
        (serial_open h path flags m).2).2).1),
   (serial_close h (serial_open h path flags m).1
      (serial_write h (serial_open h path flags m).1 buf count
        (serial_open h path flags m).2).2).2)

/-- The primitive calls a computation issues when it is run from machine `m`:
what it appended to the trace. -/
def issuedBy {σ : Type} (run : Machine σ → Int × Machine σ) (m : Machine σ) : List Call :=
  (run m).2.trace.drop m.trace.length

/-! ## Basic facts about `callPrim` and the dispatcher -/

theorem callPrim_os {σ : Type} (h : Host σ) (c : Call) (m : Machine σ) :
    (callPrim h c m).2.os = (h.exec c m.os).2 := rfl

theorem callPrim_trace {σ : Type} (h : Host σ) (c : Call) (m : Machine σ) :
    (callPrim h c m).2.trace = m.trace ++ [c] := rfl

theorem issuedBy_callPrim {σ : Type} (h : Host σ) (c : Call) (m : Machine σ) :
    issuedBy (callPrim h c) m = [c] := by
  simp [issuedBy, callPrim_trace]

/-- Every wrapper invocation is one `callPrim` of its direct primitive call. -/
theorem WCall.run_eq_callPrim {σ : Type} (h : Host σ) (w : WCall) (m : Machine σ) :
    w.run h m = callPrim h w.direct m := by
  cases w <;> rfl

/-- A wrapper sequence yields the results and the host state of the direct
sequence, whatever the trace recorded so far. -/
theorem runWrappers_eq_runDirect {σ : Type} (h : Host σ) (ws : List WCall) (m : Machine σ) :
    (runWrappers h ws m).1 = (runDirect h (ws.map WCall.direct) m.os).1 ∧
    (runWrappers h ws m).2.os = (runDirect h (ws.map WCall.direct) m.os).2 := by
  induction ws generalizing m with
  | nil => exact ⟨rfl, rfl⟩
  | cons w ws ih =>
    have hw : (w.run h m).1 = (h.exec w.direct m.os).1 := by
      rw [WCall.run_eq_callPrim]; rfl
    have hs : (w.run h m).2.os = (h.exec w.direct m.os).2 := by
      rw [WCall.run_eq_callPrim]; rfl
    have ih2 := ih (w.run h m).2
    rw [hs] at ih2
    simp only [runWrappers, runDirect, List.map_cons]
    exact ⟨by rw [hw, ih2.1], ih2.2⟩

/-- A wrapper sequence appends exactly its direct calls to the trace. -/
theorem runWrappers_trace {σ : Type} (h : Host σ) (ws : List WCall) (m : Machine σ) :
    (runWrappers h ws m).2.trace = m.trace ++ ws.map WCall.direct := by
  induction ws generalizing m with
  | nil => simp [runWrappers]
  | cons w ws ih =>
    simp only [runWrappers, List.map_cons]
    rw [ih, WCall.run_eq_callPrim, callPrim_trace]
    simp

/-! ## Pass-through theorems (every host) -/

/-- C1: for every path, flag set and host state, `serial_open(P, F)` returns the
descriptor value that a direct `open(P, F)` returns from that state, and leaves
the same host state, hence the same last-error value. -/
theorem serial_open_refines_open {σ : Type} (h : Host σ) (path : Nat) (flags : Int)
    (s : σ) (t : List Call) :
    (serial_open h path flags { os := s, trace := t }).1
        = (h.exec (Call.sys_open path flags none) s).1 ∧
    (serial_open h path flags { os := s, trace := t }).2.os
        = (h.exec (Call.sys_open path flags none) s).2 ∧
    h.errno (serial_open h path flags { os := s, trace := t }).2.os
        = h.errno (h.exec (Call.sys_open path flags none) s).2 :=
  ⟨rfl, rfl, rfl⟩

/-- C2: for every descriptor, buffer address, size and host state,
`serial_read(D, B, N)` returns the count that a direct `read(D, B, N)` returns
from that state (short, zero or negative included), leaves every byte of memory
as the direct call leaves it, and so leaves unchanged every byte the direct
call leaves unchanged. -/
theorem serial_read_refines_read {σ : Type} (h : Host σ) (fd : Int) (buf count : Nat)
    (s : σ) (t : List Call) :
    (serial_read h fd buf count { os := s, trace := t }).1
        = (h.exec (Call.sys_read fd buf count) s).1 ∧
    (serial_read h fd buf count { os := s, trace := t }).2.os
        = (h.exec (Call.sys_read fd buf count) s).2 ∧
    (∀ a : Nat, h.mem (serial_read h fd buf count { os := s, trace := t }).2.os a
        = h.mem (h.exec (Call.sys_read fd buf count) s).2 a) ∧
    (∀ a : Nat, h.mem (h.exec (Call.sys_read fd buf count) s).2 a = h.mem s a →
        h.mem (serial_read h fd buf count { os := s, trace := t }).2.os a = h.mem s a) :=
  ⟨rfl, rfl, fun _ => rfl, fun _ hu => hu⟩

/-- C3: for each of the ten wrappers and every input, the value returned and the
last-error value left are exactly those of the underlying primitive, so a
failure `(r, e)` of the primitive is the wrapper's `(r, e)`, and the wrapper
fails exactly when the primitive fails. -/
theorem wrapper_surfaces_result_and_errno {σ : Type} (h : Host σ) (w : WCall)
    (s : σ) (t : List Call) :
    (w.run h { os := s, trace := t }).1 = (h.exec w.direct s).1 ∧
    h.errno (w.run h { os := s, trace := t }).2.os = h.errno (h.exec w.direct s).2 ∧
    ((w.run h { os := s, trace := t }).1 < 0 ↔ (h.exec w.direct s).1 < 0) := by
  rw [WCall.run_eq_callPrim]
  exact ⟨rfl, rfl, Iff.rfl⟩

/-- C4: the layer is stateless.  For every finite sequence of wrapper calls and
every initial host state, the results and the final host state are those of the
corresponding direct calls; and a wrapper call's result and effect depend only
on its arguments and the host state, not on the calls made before (the trace),
the machine holding nothing else. -/
theorem layer_is_stateless {σ : Type} (h : Host σ) (ws : List WCall) (s : σ)
    (t : List Call) :
    (runWrappers h ws { os := s, trace := t }).1
        = (runDirect h (ws.map WCall.direct) s).1 ∧
    (runWrappers h ws { os := s, trace := t }).2.os
        = (runDirect h (ws.map WCall.direct) s).2 ∧
    (∀ (w : WCall) (t1 t2 : List Call),
        (w.run h { os := s, trace := t1 }).1 = (w.run h { os := s, trace := t2 }).1 ∧
        (w.run h { os := s, trace := t1 }).2.os = (w.run h { os := s, trace := t2 }).2.os) := by
  refine ⟨(runWrappers_eq_runDirect h ws _).1, (runWrappers_eq_runDirect h ws _).2, ?_⟩
  intro w t1 t2
  rw [WCall.run_eq_callPrim, WCall.run_eq_callPrim]
  exact ⟨rfl, rfl⟩

/-- C9: each of the ten wrappers issues exactly one primitive call, the
corresponding one, with the wrapper's arguments unchanged and in order, and
returns that call's value and state, whatever the value is (a failure, an
interrupted call, a short count): nothing is retried or completed. -/
theorem wrapper_issues_exactly_one_call {σ : Type} (h : Host σ) (m : Machine σ)
    (path : Nat) (flags fd : Int) (buf count request arg termios_p : Nat)
    (optional_actions queue_selector : Int) (speed : Nat) :
    (issuedBy (serial_open h path flags) m = [Call.sys_open path flags none] ∧
      (serial_open h path flags m).1 = (h.exec (Call.sys_open path flags none) m.os).1 ∧
      (serial_open h path flags m).2.os = (h.exec (Call.sys_open path flags none) m.os).2) ∧
    (issuedBy (serial_close h fd) m = [Call.sys_close fd] ∧
      (serial_close h fd m).1 = (h.exec (Call.sys_close fd) m.os).1 ∧
      (serial_close h fd m).2.os = (h.exec (Call.sys_close fd) m.os).2) ∧
    (issuedBy (serial_read h fd buf count) m = [Call.sys_read fd buf count] ∧
      (serial_read h fd buf count m).1 = (h.exec (Call.sys_read fd buf count) m.os).1 ∧
      (serial_read h fd buf count m).2.os = (h.exec (Call.sys_read fd buf count) m.os).2) ∧
    (issuedBy (serial_write h fd buf count) m = [Call.sys_write fd buf count] ∧
      (serial_write h fd buf count m).1 = (h.exec (Call.sys_write fd buf count) m.os).1 ∧
      (serial_write h fd buf count m).2.os = (h.exec (Call.sys_write fd buf count) m.os).2) ∧
    (issuedBy (serial_ioctl h fd request arg) m = [Call.sys_ioctl fd request arg] ∧
      (serial_ioctl h fd request arg m).1 = (h.exec (Call.sys_ioctl fd request arg) m.os).1 ∧
      (serial_ioctl h fd request arg m).2.os = (h.exec (Call.sys_ioctl fd request arg) m.os).2) ∧
    (issuedBy (serial_tcgetattr h fd termios_p) m = [Call.sys_tcgetattr fd termios_p] ∧
      (serial_tcgetattr h fd termios_p m).1 = (h.exec (Call.sys_tcgetattr fd termios_p) m.os).1 ∧
      (serial_tcgetattr h fd termios_p m).2.os
        = (h.exec (Call.sys_tcgetattr fd termios_p) m.os).2) ∧
    (issuedBy (serial_tcsetattr h fd optional_actions termios_p) m
        = [Call.sys_tcsetattr fd optional_actions termios_p] ∧
      (serial_tcsetattr h fd optional_actions termios_p m).1
        = (h.exec (Call.sys_tcsetattr fd optional_actions termios_p) m.os).1 ∧
      (serial_tcsetattr h fd optional_actions termios_p m).2.os
        = (h.exec (Call.sys_tcsetattr fd optional_actions termios_p) m.os).2) ∧
    (issuedBy (serial_tcflush h fd queue_selector) m = [Call.sys_tcflush fd queue_selector] ∧
      (serial_tcflush h fd queue_selector m).1
        = (h.exec (Call.sys_tcflush fd queue_selector) m.os).1 ∧
      (serial_tcflush h fd queue_selector m).2.os
        = (h.exec (Call.sys_tcflush fd queue_selector) m.os).2) ∧
    (issuedBy (serial_cfsetispeed h termios_p speed) m = [Call.sys_cfsetispeed termios_p speed] ∧
      (serial_cfsetispeed h termios_p speed m).1
        = (h.exec (Call.sys_cfsetispeed termios_p speed) m.os).1 ∧
      (serial_cfsetispeed h termios_p speed m).2.os
        = (h.exec (Call.sys_cfsetispeed termios_p speed) m.os).2) ∧
    (issuedBy (serial_cfsetospeed h termios_p speed) m = [Call.sys_cfsetospeed termios_p speed] ∧
      (serial_cfsetospeed h termios_p speed m).1
        = (h.exec (Call.sys_cfsetospeed termios_p speed) m.os).1 ∧
      (serial_cfsetospeed h termios_p speed m).2.os
        = (h.exec (Call.sys_cfsetospeed termios_p speed) m.os).2) :=
  ⟨⟨issuedBy_callPrim h _ m, rfl, rfl⟩, ⟨issuedBy_callPrim h _ m, rfl, rfl⟩,
   ⟨issuedBy_callPrim h _ m, rfl, rfl⟩, ⟨issuedBy_callPrim h _ m, rfl, rfl⟩,
   ⟨issuedBy_callPrim h _ m, rfl, rfl⟩, ⟨issuedBy_callPrim h _ m, rfl, rfl⟩,
   ⟨issuedBy_callPrim h _ m, rfl, rfl⟩, ⟨issuedBy_callPrim h _ m, rfl, rfl⟩,
   ⟨issuedBy_callPrim h _ m, rfl, rfl⟩, ⟨issuedBy_callPrim h _ m, rfl, rfl⟩⟩

/-- C10: for every path and flag set (the create flag included),
`serial_open` issues the single call `open(path, flags)` with no third
argument; no call of `open` that carries a mode is ever issued by it. -/
theorem serial_open_never_passes_mode {σ : Type} (h : Host σ) (path : Nat) (flags : Int)
    (m : Machine σ) :
    issuedBy (serial_open h path flags) m = [Call.sys_open path flags none] ∧
    (∀ (p : Nat) (f : Int) (mode : Nat),
        Call.sys_open p f (some mode) ∉ issuedBy (serial_open h path flags) m) := by
  have hi : issuedBy (serial_open h path flags) m = [Call.sys_open path flags none] :=
    issuedBy_callPrim h _ m
  refine ⟨hi, ?_⟩
  intro p f mode hmem
  rw [hi] at hmem
  simp at hmem

/-! ## Facts about the reference host -/

theorem firstFree_spec (l : List (Option OpenFile)) (i : Nat) (x : Option OpenFile)
    (hi : firstFree l = some i) : (l.set i x)[i]? = some x := by
  induction l generalizing i with
  | nil => simp [firstFree] at hi
  | cons a rest ih =>
    cases a with
    | none =>
      simp only [firstFree, Option.some.injEq] at hi
      subst hi
      simp
    | some g =>
      simp only [firstFree, Option.map_eq_some'] at hi
      obtain ⟨j, hj, rfl⟩ := hi
      simpa using ih j hj

theorem World.sys_open_devNull (w : World) (path i : Nat)
    (hpath : w.cstr path 4096 = devNull) (hfree : firstFree w.fds = some i) :
    w.sys_open path O_WRONLY none
      = ((i : Int), { w with fds := w.fds.set i (some { node := Node.null, flags := O_WRONLY }) }) := by
  unfold World.sys_open
  have h3 : ¬ (O_WRONLY % 4 = 3) := by decide
  rw [if_neg h3]
  simp only [hpath, if_true, hfree]

theorem World.file_after_open (w : World) (i : Nat) (f : OpenFile)
    (hfree : firstFree w.fds = some i) :
    ({ w with fds := w.fds.set i (some f) } : World).file (i : Int) = some f := by
  unfold World.file
  have hi : ¬ ((i : Int) < 0) := by omega
  rw [if_neg hi]
  simp only [Int.toNat_ofNat]
  rw [firstFree_spec w.fds i (some f) hfree]
  rfl

/-- C8: on the reference host, in every state in which `path` holds the string
`/dev/null` and a descriptor slot is free: `serial_open(path, O_WRONLY)` returns
a descriptor `d ≥ 0` (the lowest free one), `serial_write(d, buf, 3)` then
returns 3, and `serial_close(d)` then returns 0. -/
theorem dev_null_scenario (w : World) (t : List Call) (path buf i : Nat)
    (hpath : w.cstr path 4096 = devNull) (hfree : firstFree w.fds = some i) :
    (scenario refHost path O_WRONLY buf 3 { os := w, trace := t }).1 = ((i : Int), 3, 0) ∧
    (0 : Int) ≤ (i : Int) := by
  refine ⟨?_, by omega⟩
  have hopen := World.sys_open_devNull w path i hpath hfree
  have hfile := World.file_after_open w i { node := Node.null, flags := O_WRONLY } hfree
  have h0 : ¬ (O_WRONLY % 4 = O_RDONLY) := by decide
  simp only [scenario, serial_open, serial_write, serial_close, callPrim, refHost, World.exec,
    hopen, World.sys_write, World.sys_close, hfile, if_neg h0]
  rfl

/-- C8 (witness): on the booted reference host address 100 holds `/dev/null`,
address 200 holds `abc`, descriptor 3 is the lowest free one, and the scenario
returns 3, 3, 0. -/
theorem dev_null_scenario_witness :
    boot.cstr 100 4096 = devNull ∧ boot.loadBytes 200 3 = [97, 98, 99] ∧
    firstFree boot.fds = some 3 ∧
    (scenario refHost 100 O_WRONLY 200 3 (Machine.start boot)).1 = (3, 3, 0) :=
  ⟨by decide, by decide, by decide,
   (dev_null_scenario boot [] 100 200 3 (by decide) (by decide)).1⟩

theorem World.attrAt_cons_ne (w : World) (p a : Nat) (x : Termios) (hne : a ≠ p) :
    ({ w with attrs := (p, x) :: w.attrs } : World).attrAt a = w.attrAt a := by
  unfold World.attrAt
  have hb : (a == p) = false := by simpa using hne
  simp [List.lookup, hb]

theorem World.attrAt_cons_self (w : World) (p : Nat) (x : Termios) :
    ({ w with attrs := (p, x) :: w.attrs } : World).attrAt p = x := by
  unfold World.attrAt
  simp [List.lookup]

theorem World.sys_cfsetispeed_ok (w : World) (p speed : Nat) (hs : speedOk speed = true) :
    w.sys_cfsetispeed p speed
      = (0, { w with attrs := (p, { w.attrAt p with c_ispeed := speed }) :: w.attrs }) := by
  unfold World.sys_cfsetispeed
  rw [if_pos hs]

theorem World.sys_cfsetispeed_bad (w : World) (p speed : Nat) (hs : speedOk speed = false) :
    w.sys_cfsetispeed p speed = w.fail EINVAL := by
  unfold World.sys_cfsetispeed
  rw [hs, if_neg Bool.false_ne_true]

theorem World.sys_cfsetospeed_ok (w : World) (p speed : Nat) (hs : speedOk speed = true) :
    w.sys_cfsetospeed p speed
      = (0, { w with attrs := (p, { w.attrAt p with c_ospeed := speed }) :: w.attrs }) := by
  unfold World.sys_cfsetospeed
  rw [if_pos hs]

theorem World.sys_cfsetospeed_bad (w : World) (p speed : Nat) (hs : speedOk speed = false) :
    w.sys_cfsetospeed p speed = w.fail EINVAL := by
  unfold World.sys_cfsetospeed
  rw [hs, if_neg Bool.false_ne_true]

/-- C5: `serial_cfsetispeed(A, S)` and `serial_cfsetospeed(A, S)` return the
status and leave the state of the underlying `cfsetispeed` / `cfsetospeed`, on
every host, and issue that single call, which carries no descriptor.  On the
reference host the status is 0 for a recognized speed and -1 (with `EINVAL` as
last error) otherwise, the descriptor table, the terminal's settings and
queues, the byte memory and every attribute structure other than `A` are
unchanged, and `A` changes in its speed field only, and only on success. -/
theorem cfsetspeed_wrappers_touch_only_the_structure {σ : Type} (h : Host σ) (m : Machine σ)
    (w : World) (t : List Call) (termios_p speed : Nat) :
    ((serial_cfsetispeed h termios_p speed m).1
        = (h.exec (Call.sys_cfsetispeed termios_p speed) m.os).1 ∧
      (serial_cfsetispeed h termios_p speed m).2.os
        = (h.exec (Call.sys_cfsetispeed termios_p speed) m.os).2 ∧
      issuedBy (serial_cfsetispeed h termios_p speed) m = [Call.sys_cfsetispeed termios_p speed] ∧
      (∀ c ∈ issuedBy (serial_cfsetispeed h termios_p speed) m, c.fd? = none)) ∧
    ((serial_cfsetospeed h termios_p speed m).1
        = (h.exec (Call.sys_cfsetospeed termios_p speed) m.os).1 ∧
      (serial_cfsetospeed h termios_p speed m).2.os
        = (h.exec (Call.sys_cfsetospeed termios_p speed) m.os).2 ∧
      issuedBy (serial_cfsetospeed h termios_p speed) m = [Call.sys_cfsetospeed termios_p speed] ∧
      (∀ c ∈ issuedBy (serial_cfsetospeed h termios_p speed) m, c.fd? = none)) ∧
    ((serial_cfsetispeed refHost termios_p speed { os := w, trace := t }).1
        = (if speedOk speed then 0 else -1) ∧
      refHost.errno (serial_cfsetispeed refHost termios_p speed { os := w, trace := t }).2.os
        = (if speedOk speed then w.errno else EINVAL) ∧
      (serial_cfsetispeed refHost termios_p speed { os := w, trace := t }).2.os.fds = w.fds ∧
      (serial_cfsetispeed refHost termios_p speed { os := w, trace := t }).2.os.line = w.line ∧
      (serial_cfsetispeed refHost termios_p speed { os := w, trace := t }).2.os.input = w.input ∧
      (serial_cfsetispeed refHost termios_p speed { os := w, trace := t }).2.os.outq = w.outq ∧
      (serial_cfsetispeed refHost termios_p speed { os := w, trace := t }).2.os.sent = w.sent ∧
      (serial_cfsetispeed refHost termios_p speed { os := w, trace := t }).2.os.bytes = w.bytes ∧
      (∀ a : Nat, a ≠ termios_p →
        refHost.termiosAt (serial_cfsetispeed refHost termios_p speed { os := w, trace := t }).2.os a
          = refHost.termiosAt w a) ∧
      refHost.termiosAt (serial_cfsetispeed refHost termios_p speed { os := w, trace := t }).2.os
          termios_p
        = (if speedOk speed then { refHost.termiosAt w termios_p with c_ispeed := speed }
           else refHost.termiosAt w termios_p)) ∧
    ((serial_cfsetospeed refHost termios_p speed { os := w, trace := t }).1
        = (if speedOk speed then 0 else -1) ∧
      refHost.errno (serial_cfsetospeed refHost termios_p speed { os := w, trace := t }).2.os
        = (if speedOk speed then w.errno else EINVAL) ∧
      (serial_cfsetospeed refHost termios_p speed { os := w, trace := t }).2.os.fds = w.fds ∧
      (serial_cfsetospeed refHost termios_p speed { os := w, trace := t }).2.os.line = w.line ∧
      (serial_cfsetospeed refHost termios_p speed { os := w, trace := t }).2.os.input = w.input ∧
      (serial_cfsetospeed refHost termios_p speed { os := w, trace := t }).2.os.outq = w.outq ∧
      (serial_cfsetospeed refHost termios_p speed { os := w, trace := t }).2.os.sent = w.sent ∧
      (serial_cfsetospeed refHost termios_p speed { os := w, trace := t }).2.os.bytes = w.bytes ∧
      (∀ a : Nat, a ≠ termios_p →
        refHost.termiosAt (serial_cfsetospeed refHost termios_p speed { os := w, trace := t }).2.os a
          = refHost.termiosAt w a) ∧
      refHost.termiosAt (serial_cfsetospeed refHost termios_p speed { os := w, trace := t }).2.os
          termios_p
        = (if speedOk speed then { refHost.termiosAt w termios_p with c_ospeed := speed }
           else refHost.termiosAt w termios_p)) := by
  have hi : issuedBy (serial_cfsetispeed h termios_p speed) m
      = [Call.sys_cfsetispeed termios_p speed] := issuedBy_callPrim h _ m
  have ho : issuedBy (serial_cfsetospeed h termios_p speed) m
      = [Call.sys_cfsetospeed termios_p speed] := issuedBy_callPrim h _ m
  refine ⟨⟨rfl, rfl, hi, ?_⟩, ⟨rfl, rfl, ho, ?_⟩, ?_, ?_⟩
  · intro c hc
    rw [hi] at hc
    simp only [List.mem_singleton] at hc
    subst hc
    rfl
  · intro c hc
    rw [ho] at hc
    simp only [List.mem_singleton] at hc
    subst hc
    rfl
  · have key : serial_cfsetispeed refHost termios_p speed { os := w, trace := t }
        = ((w.sys_cfsetispeed termios_p speed).1,
            { os := (w.sys_cfsetispeed termios_p speed).2,
              trace := t ++ [Call.sys_cfsetispeed termios_p speed] }) := rfl
    rw [key]
    cases hs : speedOk speed with
    | true =>
      rw [World.sys_cfsetispeed_ok w termios_p speed hs, if_pos rfl, if_pos rfl, if_pos rfl]
      exact ⟨rfl, rfl, rfl, rfl, rfl, rfl, rfl, rfl,
        fun a ha => World.attrAt_cons_ne w termios_p a _ ha, World.attrAt_cons_self w termios_p _⟩
    | false =>
      rw [World.sys_cfsetispeed_bad w termios_p speed hs, if_neg Bool.false_ne_true,
        if_neg Bool.false_ne_true, if_neg Bool.false_ne_true]
      exact ⟨rfl, rfl, rfl, rfl, rfl, rfl, rfl, rfl, fun _ _ => rfl, rfl⟩
  · have key : serial_cfsetospeed refHost termios_p speed { os := w, trace := t }
        = ((w.sys_cfsetospeed termios_p speed).1,
            { os := (w.sys_cfsetospeed termios_p speed).2,
              trace := t ++ [Call.sys_cfsetospeed termios_p speed] }) := rfl
    rw [key]
    cases hs : speedOk speed with
    | true =>
      rw [World.sys_cfsetospeed_ok w termios_p speed hs, if_pos rfl, if_pos rfl, if_pos rfl]
      exact ⟨rfl, rfl, rfl, rfl, rfl, rfl, rfl, rfl,
        fun a ha => World.attrAt_cons_ne w termios_p a _ ha, World.attrAt_cons_self w termios_p _⟩
    | false =>
      rw [World.sys_cfsetospeed_bad w termios_p speed hs, if_neg Bool.false_ne_true,
        if_neg Bool.false_ne_true, if_neg Bool.false_ne_true]
      exact ⟨rfl, rfl, rfl, rfl, rfl, rfl, rfl, rfl, fun _ _ => rfl, rfl⟩

/-! ## Evaluations on the reference host -/

/-- The scenario through the layer returns what the same three primitive calls
return, on every host. -/
theorem scenario_passthrough {σ : Type} (h : Host σ) (path : Nat) (flags : Int)
    (buf count : Nat) (s : σ) (t : List Call) :
    (scenario h path flags buf count { os := s, trace := t }).1
      = ((h.exec (Call.sys_open path flags none) s).1,
         (h.exec (Call.sys_write (h.exec (Call.sys_open path flags none) s).1 buf count)
            (h.exec (Call.sys_open path flags none) s).2).1,
         (h.exec (Call.sys_close (h.exec (Call.sys_open path flags none) s).1)
            (h.exec (Call.sys_write (h.exec (Call.sys_open path flags none) s).1 buf count)
              (h.exec (Call.sys_open path flags none) s).2).2).1) :=
  rfl

/-- The terminal of the booted reference host with two received bytes: a
`serial_read` of 5 bytes returns 2 and stores them; a `serial_read` from
`/dev/null` (descriptor 3 after the open) returns 0. -/
theorem serial_read_short_and_zero_counts :
    (serial_read refHost 0 500 5 (Machine.start { boot with input := [104, 105] })).1 = 2 ∧
    refHost.mem
      (serial_read refHost 0 500 5 (Machine.start { boot with input := [104, 105] })).2.os 500
      = 104 ∧
    refHost.mem
      (serial_read refHost 0 500 5 (Machine.start { boot with input := [104, 105] })).2.os 502
      = 0 ∧
    (runWrappers refHost [WCall.w_open 100 O_RDONLY, WCall.w_read 3 500 5]
      (Machine.start boot)).1 = [3, 0] := by
  decide

/-- The terminal of the booted reference host has room for 4 bytes: the second
`serial_write` of 3 bytes returns the short count 1 and the third fails
(-1, `EINTR`); each wrapper call issued one `write`. -/
theorem serial_write_short_count_not_completed :
    (runWrappers refHost
      [WCall.w_write 1 200 3, WCall.w_write 1 200 3, WCall.w_write 1 200 3]
      (Machine.start boot)).1 = [3, 1, -1] ∧
    (runWrappers refHost
      [WCall.w_write 1 200 3, WCall.w_write 1 200 3, WCall.w_write 1 200 3]
      (Machine.start boot)).2.trace
      = [Call.sys_write 1 200 3, Call.sys_write 1 200 3, Call.sys_write 1 200 3] ∧
    refHost.errno (runWrappers refHost
      [WCall.w_write 1 200 3, WCall.w_write 1 200 3, WCall.w_write 1 200 3]
      (Machine.start boot)).2.os = EINTR := by
  decide

/-- On the booted reference host `serial_cfsetispeed` with `B9600` (13) returns 0
and leaves the terminal's settings as they were; 9999 is not a speed encoding
and gives -1 with `EINVAL`. -/
theorem serial_cfsetispeed_evaluated :
    (serial_cfsetispeed refHost 300 13 (Machine.start boot)).1 = 0 ∧
    (serial_cfsetispeed refHost 300 13 (Machine.start boot)).2.os.line = boot.line ∧
    (serial_cfsetispeed refHost 300 9999 (Machine.start boot)).1 = -1 ∧
    refHost.errno (serial_cfsetispeed refHost 300 9999 (Machine.start boot)).2.os = EINVAL := by
  decide

end SysWrappers
